import Mathlib

/-!
# Verification of `scraper.py` (e-st.lv electricity usage scraper)

A shallow embedding of the scraper's pure logic:

* the JSON value model and the graph-payload normalizer
  (`_format_response`, `_format_timestamp`),
* a minimal HTML-document model sufficient for the PyQuery selections the
  scraper performs (`input[name=X]`, `div.chart`, `.attr`),
* the login POST body construction from `_fetch_remote_data`,
* the data-URL builder `_get_data_url` (with its `print` side effect made
  explicit as an output trace) together with Python's `urlencode`/
  `quote_plus`, and
* the `__main__` period dispatch.

Machine-level details that the embedding fixes explicitly:

* Python dict lookup failure (`KeyError`/`TypeError`) and raised exceptions
  are modelled as `Option.none`;
* `datetime.datetime.fromtimestamp(int(t) / 1000.0).strftime(...)` is
  modelled as flooring division of the epoch-millisecond value by 1000
  followed by a civil-calendar rendering of local time, where the host's
  local timezone is an explicit offset-in-seconds parameter;
* `json.loads` is an external library routine, so it appears as an explicit
  parser parameter `String → Option Json` of the fetch pipeline.
-/

namespace Scraper

/-! ## JSON values -/

/-- JSON values as produced by `json.loads`: the Python objects the
normalizer manipulates.  Numbers are modelled as integers (the payload's
timestamps are epoch milliseconds; consumption values are copied without
arithmetic, so their exact numeric type is irrelevant). -/
inductive Json where
  | null : Json
  | bool (b : Bool) : Json
  | num (n : Int) : Json
  | str (s : String) : Json
  | arr (items : List Json) : Json
  | obj (fields : List (String × Json)) : Json

/-- Python subscription `j[key]` on a parsed JSON value: a `KeyError`
(missing key) or `TypeError` (not a dict) is `none`. -/
def Json.getObj (j : Json) (key : String) : Option Json :=
  match j with
  | .obj fields => (fields.find? (fun p => p.1 = key)).map (·.2)
  | _ => none

/-- Python iteration `for item in j`: lists yield their items, dicts their
keys, strings their characters; other values raise `TypeError` (`none`). -/
def Json.iterate (j : Json) : Option (List Json) :=
  match j with
  | .arr items => some items
  | .obj fields => some (fields.map (fun p => Json.str p.1))
  | .str s => some (s.toList.map (fun c => Json.str (String.singleton c)))
  | _ => none

/-! ## Civil-time rendering (`strftime`) -/

/-- Left-pad a number to two digits, as `strftime` does for `%m`, `%d`,
`%H`, `%M`, `%S`. -/
def pad2 (n : Nat) : String :=
  if n < 10 then "0" ++ toString n else toString n

/-- Left-pad a number to four digits, as `strftime` does for `%Y`. -/
def pad4 (n : Nat) : String :=
  if n < 10 then "000" ++ toString n
  else if n < 100 then "00" ++ toString n
  else if n < 1000 then "0" ++ toString n
  else toString n

/-- Proleptic-Gregorian date of day `z` counted from the 1970-01-01 epoch
(days-from-civil inverse, valid for all `z ≥ 0`): returns
`(year, month, day)`. -/
def civilFromDays (z : Nat) : Nat × Nat × Nat :=
  let z' := z + 719468
  let era := z' / 146097
  let doe := z' % 146097
  let yoe := (doe - doe / 1460 + doe / 36524 - doe / 146096) / 365
  let y := yoe + era * 400
  let doy := doe - (365 * yoe + yoe / 4 - yoe / 100)
  let mp := (5 * doy + 2) / 153
  let d := doy - (153 * mp + 2) / 5 + 1
  let m := if mp < 10 then mp + 3 else mp - 9
  (if m ≤ 2 then y + 1 else y, m, d)

/-- Render epoch second `s` as `YYYY-MM-DD HH:MM:SS`, the shape produced by
`strftime('%Y-%m-%d %H:%M:%S')`. -/
def formatEpochSeconds (s : Nat) : String :=
  let days := s / 86400
  let rem := s % 86400
  let ymd := civilFromDays days
  pad4 ymd.1 ++ "-" ++ pad2 ymd.2.1 ++ "-" ++ pad2 ymd.2.2 ++ " " ++
    pad2 (rem / 3600) ++ ":" ++ pad2 (rem % 3600 / 60) ++ ":" ++ pad2 (rem % 60)

/-- `_format_timestamp` (scraper.py lines 122–131):
`datetime.datetime.fromtimestamp(int(timestamp) / 1000.0)
 .strftime('%Y-%m-%d %H:%M:%S')`.
The division drops the sub-second part of the epoch-millisecond value
before any calendar conversion; `fromtimestamp` interprets the resulting
epoch second in the host's local timezone, modelled by the explicit offset
`tz` (in seconds east of UTC). -/
def formatTimestamp (tz : Int) (timestamp : Int) : String :=
  formatEpochSeconds (Int.fdiv timestamp 1000 + tz).toNat

/-! ## Response normalizer (`_format_response`) -/

/-- One element of the normalizer's output list:
`{'data': <formatted timestamp>, 'value': <value>}`. -/
structure ConsumptionRecord where
  data : String
  value : Json

/-- The list comprehension of `_format_response` (lines 141–144): each item
is subscripted at `'timestamp'` and `'value'`; any missing key or non-dict
item raises, which aborts the whole comprehension. -/
def formatItems (tz : Int) : List Json → Option (List ConsumptionRecord)
  | [] => some []
  | item :: rest =>
    match item.getObj "timestamp", item.getObj "value" with
    | some (.num n), some v =>
      (formatItems tz rest).map (fun recs => ⟨formatTimestamp tz n, v⟩ :: recs)
    | _, _ => none

/-- The fixed subscript chain
`response_data['values']['A+']['total']['data']` (line 140); any failing
subscript raises (`none`). -/
def payloadDataPath (j : Json) : Option Json :=
  (((j.getObj "values").bind (fun v => v.getObj "A+")).bind
    (fun v => v.getObj "total")).bind (fun v => v.getObj "data")

/-- `_format_response` (lines 133–144): navigate the fixed path, then run
the list comprehension over the resulting sequence. -/
def formatResponse (tz : Int) (response_data : Json) : Option (List ConsumptionRecord) :=
  (payloadDataPath response_data).bind (fun d => d.iterate.bind (formatItems tz))

/-! ## HTML document model

Only the features the scraper's two PyQuery selections need: a document is
a flat sequence of elements (document order), each with a tag name and an
attribute list. -/

/-- An HTML element: tag name plus its attributes. -/
structure Element where
  tag : String
  attrs : List (String × String)

/-- A parsed HTML document, flattened to document order. -/
abbrev HtmlDoc := List Element

/-- An element's attribute by name, as PyQuery's `.attr` reads it. -/
def Element.attr (e : Element) (name : String) : Option String :=
  (e.attrs.find? (fun p => p.1 = name)).map (·.2)

/-- Split a character list at every occurrence of `sep` (accumulator holds
the current chunk, reversed). -/
def splitOnChar (sep : Char) : List Char → List Char → List String
  | [], cur => [String.mk cur.reverse]
  | c :: rest, cur =>
    if c = sep then String.mk cur.reverse :: splitOnChar sep rest []
    else splitOnChar sep rest (c :: cur)

/-- CSS class membership: the `class` attribute is a space-separated list. -/
def Element.hasClass (e : Element) (c : String) : Bool :=
  match e.attr "class" with
  | some s => (splitOnChar ' ' s.toList []).contains c
  | none => false

/-- PyQuery `.attr(name)` on a selection: the first selected element's
attribute, `None` when the selection is empty or the attribute absent. -/
def selectionAttr (sel : List Element) (name : String) : Option String :=
  match sel with
  | [] => none
  | e :: _ => e.attr name

/-- The selection `root('input[name=F]')`: every `input` element whose
`name` attribute equals `F`. -/
def selectInputByName (doc : HtmlDoc) (field : String) : List Element :=
  doc.filter (fun e => e.tag == "input" && e.attr "name" == some field)

/-- The selection `root('div.chart')`: every `div` element carrying class
`chart`. -/
def selectDivChart (doc : HtmlDoc) : List Element :=
  doc.filter (fun e => e.tag == "div" && e.hasClass "chart")

/-! ## Login POST body (`_fetch_remote_data`, lines 192–207) -/

/-- The credentials given to `ESTScraper.__init__`. -/
structure Credentials where
  login : String
  password : String

/-- The four hidden-field names scraped from the login page
(`fields` tuple, lines 192–197). -/
def loginFields : List String := ["_token", "returnUrl", "login", "password"]

/-- `root('input[name=field]').attr('value')` (line 201): the `value`
attribute of the first matching input, `None` when absent. -/
def scrapeInputValue (doc : HtmlDoc) (field : String) : Option String :=
  selectionAttr (selectInputByName doc field) "value"

/-- Python dict assignment `d[k] = v` on an insertion-ordered dict whose
keys already include `k`: replace in place. -/
def setField (l : List (String × Option String)) (k : String) (v : Option String) :
    List (String × Option String) :=
  l.map (fun p => if p.1 = k then (k, v) else p)

/-- Dict lookup on the POST body: `some v` when the key is present with
value `v` (itself an `Option`, since a scraped value may be `None`). -/
def getField (l : List (String × Option String)) (k : String) : Option (Option String) :=
  (l.find? (fun p => p.1 = k)).map (·.2)

/-- The `values` dict posted to the login endpoint (lines 199–207): one
entry per scraped hidden field, then `login` and `password` overwritten
with the real credentials. -/
def loginPostData (creds : Credentials) (loginPage : HtmlDoc) :
    List (String × Option String) :=
  let scraped := loginFields.map (fun f => (f, scrapeInputValue loginPage f))
  setField (setField scraped "login" (some creds.login)) "password" (some creds.password)

/-! ## The post-login extraction pipeline (lines 208–210 and the
`get_*_data` tail) -/

/-- `root('div.chart').attr('data-values')` (line 209). -/
def getChartValues (doc : HtmlDoc) : Option String :=
  selectionAttr (selectDivChart doc) "data-values"

/-- `json.loads(values)` applied to the chart attribute (line 210):
`json.loads` is an external routine, passed in as `parse`; feeding it
`None` (attribute not found) raises, and a parse failure raises too. -/
def extractPayload (parse : String → Option Json) (doc : HtmlDoc) : Option Json :=
  (getChartValues doc).bind parse

/-- The result a `get_*_data` call computes from the post-login page:
`_format_response(_fetch_remote_data(...))`, with the two HTTP round
trips abstracted into the page `doc` they return.  `none` models a raised
exception anywhere along the chain. -/
def fetchResult (parse : String → Option Json) (tz : Int) (doc : HtmlDoc) :
    Option (List ConsumptionRecord) :=
  (extractPayload parse doc).bind (formatResponse tz)

/-! ## URL builder (`_get_data_url`, lines 78–120) -/

def BASE_HOST : String := "https://www.e-st.lv"
def LOGIN_URL : String := BASE_HOST ++ "/lv/private/user-authentification/"
def DATA_URL : String := BASE_HOST ++ "/lv/private/paterini-un-norekini/paterinu-grafiki/"

def PERIOD_DAY : String := "D"
def PERIOD_MONTH : String := "M"
def PERIOD_YEAR : String := "Y"

def GRANULARITY_NATIVE : String := "NATIVE"
def GRANULARITY_HOUR : String := "H"
def GRANULARITY_DAY : String := "D"

/-- The current local date, as read by `datetime.datetime.now()`; an
explicit parameter of the embedding (the builder's only impure read
besides `print`). -/
structure LocalDate where
  year : Nat
  month : Nat
  day : Nat

/-- `_get_current_year` (lines 60–64): `strftime('%Y')` of now. -/
def getCurrentYear (now : LocalDate) : String := pad4 now.year

/-- `_get_current_month` (lines 66–70): `strftime('%m')` of now. -/
def getCurrentMonth (now : LocalDate) : String := pad2 now.month

/-- `_get_current_day` (lines 72–76): `strftime('%d')` of now. -/
def getCurrentDay (now : LocalDate) : String := pad2 now.day

/-- Python's `x or default` on an optional string: `None` and the empty
string (both falsy) select the default. -/
def pyOr (x : Option String) (default : String) : String :=
  match x with
  | none => default
  | some s => if s = "" then default else s

/-- `str(v)` as `urlencode` applies it to a dict value: a missing value
(`None`) renders as the literal string `None`. -/
def pyStr (v : Option String) : String :=
  match v with
  | some s => s
  | none => "None"

/-- Uppercase hex digit, for percent-escapes. -/
def hexDigitUpper (n : Nat) : Char :=
  if n < 10 then Char.ofNat (48 + n) else Char.ofNat (55 + n)

/-- UTF-8 bytes of a character, for percent-encoding non-safe characters. -/
def utf8Bytes (c : Char) : List Nat :=
  let n := c.toNat
  if n < 0x80 then [n]
  else if n < 0x800 then
    [0xC0 ||| (n >>> 6), 0x80 ||| (n &&& 0x3F)]
  else if n < 0x10000 then
    [0xE0 ||| (n >>> 12), 0x80 ||| ((n >>> 6) &&& 0x3F), 0x80 ||| (n &&& 0x3F)]
  else
    [0xF0 ||| (n >>> 18), 0x80 ||| ((n >>> 12) &&& 0x3F),
     0x80 ||| ((n >>> 6) &&& 0x3F), 0x80 ||| (n &&& 0x3F)]

/-- `urllib.parse.quote_plus` on one character: ASCII letters, digits and
`_ . - ~` pass through, space becomes `+`, everything else becomes
percent-escaped UTF-8 bytes. -/
def quotePlusChar (c : Char) : String :=
  if c.isAlphanum && c.toNat < 0x80 then String.singleton c
  else if c = '_' || c = '.' || c = '-' || c = '~' then String.singleton c
  else if c = ' ' then "+"
  else String.join ((utf8Bytes c).map (fun b =>
    "%" ++ String.singleton (hexDigitUpper (b / 16)) ++ String.singleton (hexDigitUpper (b % 16))))

/-- `urllib.parse.quote_plus` on a string. -/
def quotePlus (s : String) : String :=
  String.join (s.toList.map quotePlusChar)

/-- `urllib.parse.urlencode` over the `params` dict in insertion order:
`k=v` pairs joined with `&`, keys and stringified values quoted. -/
def urlencode (ps : List (String × Option String)) : String :=
  String.intercalate "&" (ps.map (fun p => quotePlus p.1 ++ "=" ++ quotePlus (pyStr p.2)))

/-- The `params` dict built by `_get_data_url` (lines 96–117), in
insertion order: `counterNumber` and `period` always; then the
period-specific keys added by the three sequential `if` branches, with
`year`/`month`/`day` defaulted from the current local date via Python
`or`. -/
def getDataUrlParams (meter : String) (now : LocalDate) (period : Option String)
    (year month day granularity : Option String) : List (String × Option String) :=
  let y := pyOr year (getCurrentYear now)
  let p0 := [("counterNumber", some meter), ("period", period)]
  let p1 := if period = some PERIOD_YEAR then p0 ++ [("year", some y)] else p0
  let p2 :=
    if period = some PERIOD_MONTH then
      p1 ++ [("year", some y), ("month", some (pyOr month (getCurrentMonth now))),
             ("granularity", granularity)]
    else p1
  if period = some PERIOD_DAY then
    p2 ++ [("date", some (pyOr day (getCurrentDay now) ++ "." ++
                          pyOr month (getCurrentMonth now) ++ "." ++ y)),
           ("granularity", granularity)]
  else p2

/-- The URL `_get_data_url` returns (line 120). -/
def getDataUrl (meter : String) (now : LocalDate) (period : Option String)
    (year month day granularity : Option String) : String :=
  DATA_URL ++ "?" ++ urlencode (getDataUrlParams meter now period year month day granularity)

/-- `_get_data_url` with its `print` (line 119) made explicit: the value
returned together with the lines written to standard output while
computing it. -/
def getDataUrlRun (meter : String) (now : LocalDate) (period : Option String)
    (year month day granularity : Option String) : String × List String :=
  let url := getDataUrl meter now period year month day granularity
  (url, [url])

/-- Dict lookup on the params list, for stating which query parameters the
builder produced. -/
def getParam (ps : List (String × Option String)) (k : String) : Option (Option String) :=
  (ps.find? (fun p => p.1 = k)).map (·.2)

/-- The params of the URL `get_day_data` fetches (lines 146–158):
`period='D'`, `granularity='H'`. -/
def getDayDataParams (meter : String) (now : LocalDate)
    (year month day : Option String) : List (String × Option String) :=
  getDataUrlParams meter now (some PERIOD_DAY) year month day (some GRANULARITY_HOUR)

/-! ## CLI period dispatch (`__main__`, lines 237–244) -/

/-- Which public fetch method the `__main__` block invokes. -/
inductive FetchCall where
  | year : FetchCall
  | month : FetchCall
  | day : FetchCall
deriving DecidableEq

/-- The three sequential `if opts.period == ...` statements (lines
237–244): `some c` when one matches (the fetch invoked, `data` assigned),
`none` when none does (`data` left unset — no error raised). -/
def dispatchPeriod (period : String) : Option FetchCall :=
  let r1 := if period = "year" then some FetchCall.year else none
  let r2 := if period = "month" then some FetchCall.month else r1
  if period = "day" then some FetchCall.day else r2

/-! ## Shared lemmas -/

/-- The list comprehension succeeds on a list of well-formed items and maps
them positionally. -/
theorem formatItems_wellFormed (tz : Int) (items : List Json)
    (h : ∀ item ∈ items, ∃ n v, item.getObj "timestamp" = some (Json.num n) ∧
           item.getObj "value" = some v) :
    ∃ recs, formatItems tz items = some recs ∧ recs.length = items.length ∧
      ∀ i (hi : i < items.length) (hr : i < recs.length) (n : Int) (v : Json),
        (items.get ⟨i, hi⟩).getObj "timestamp" = some (Json.num n) →
        (items.get ⟨i, hi⟩).getObj "value" = some v →
        recs.get ⟨i, hr⟩ = ⟨formatTimestamp tz n, v⟩ := by
  induction items with
  | nil => exact ⟨[], rfl, rfl, fun i hi => absurd hi (Nat.not_lt_zero i)⟩
  | cons item rest ih =>
    obtain ⟨n, v, hts, hv⟩ := h item (List.mem_cons_self _ _)
    obtain ⟨recs, hrecs, hlen, hidx⟩ := ih (fun it hm => h it (List.mem_cons_of_mem _ hm))
    refine ⟨⟨formatTimestamp tz n, v⟩ :: recs, ?_, ?_, ?_⟩
    · simp [formatItems, hts, hv, hrecs]
    · simp [hlen]
    · intro i hi hr n' v' hts' hv'
      match i with
      | 0 =>
        have h1 : some (Json.num n) = some (Json.num n') := hts.symm.trans hts'
        have h2 : some v = some v' := hv.symm.trans hv'
        injection h1 with h1'
        injection h1' with h1''
        injection h2 with h2'
        subst h1''; subst h2'
        rfl
      | i + 1 =>
        exact hidx i (Nat.lt_of_succ_lt_succ hi) (Nat.lt_of_succ_lt_succ hr) n' v' hts' hv'

/-! ## Claim theorems -/

/-- **C1** (confirmed): for every payload whose
`values['A+']['total']['data']` sequence has `N` (well-formed) entries,
`_format_response` produces exactly `N` `ConsumptionRecord`s, in the same
order, each with `value` copied unchanged and `data` the formatted
timestamp of that entry. -/
theorem formatResponse_roundtrip (tz : Int) (payload : Json) (entries : List Json)
    (hpath : payloadDataPath payload = some (Json.arr entries))
    (hwf : ∀ item ∈ entries, ∃ n v, item.getObj "timestamp" = some (Json.num n) ∧
             item.getObj "value" = some v) :
    ∃ recs, formatResponse tz payload = some recs ∧ recs.length = entries.length ∧
      ∀ i (hi : i < entries.length) (hr : i < recs.length) (n : Int) (v : Json),
        (entries.get ⟨i, hi⟩).getObj "timestamp" = some (Json.num n) →
        (entries.get ⟨i, hi⟩).getObj "value" = some v →
        recs.get ⟨i, hr⟩ = ⟨formatTimestamp tz n, v⟩ := by
  obtain ⟨recs, h1, h2, h3⟩ := formatItems_wellFormed tz entries hwf
  refine ⟨recs, ?_, h2, h3⟩
  rw [formatResponse, hpath]
  simpa [Json.iterate] using h1

/-- A concrete one-entry payload, as in the end-to-end scenario of the
spec's testable properties. -/
def exampleItem : Json :=
  Json.obj [("timestamp", Json.num 1456790400123), ("value", Json.num 5)]

/-- A payload wrapping `exampleItem` at the fixed path. -/
def examplePayload : Json :=
  Json.obj [("values", Json.obj [("A+", Json.obj [("total",
    Json.obj [("data", Json.arr [exampleItem])])])])]

/-- Witness for **C1** at the concrete one-entry payload. -/
theorem formatResponse_roundtrip_witness :
    payloadDataPath examplePayload = some (Json.arr [exampleItem]) ∧
    (∃ recs, formatResponse 0 examplePayload = some recs ∧
      recs.length = [exampleItem].length ∧
      ∀ i (hi : i < [exampleItem].length) (hr : i < recs.length) (n : Int) (v : Json),
        ([exampleItem].get ⟨i, hi⟩).getObj "timestamp" = some (Json.num n) →
        ([exampleItem].get ⟨i, hi⟩).getObj "value" = some v →
        recs.get ⟨i, hr⟩ = ⟨formatTimestamp 0 n, v⟩) := by
  refine ⟨rfl, formatResponse_roundtrip 0 examplePayload [exampleItem] rfl ?_⟩
  intro item hm
  rw [List.mem_singleton] at hm
  subst hm
  exact ⟨1456790400123, Json.num 5, rfl, rfl⟩

/-- **C2** (confirmed): whatever the login page contains, the POST body is
the four scraped hidden fields in order, with the `login` and `password`
entries overwritten by the constructor credentials; `_token` and
`returnUrl` keep whatever was scraped (possibly `None`). -/
theorem loginPostData_overrides_credentials (creds : Credentials) (loginPage : HtmlDoc) :
    loginPostData creds loginPage
      = [("_token", scrapeInputValue loginPage "_token"),
         ("returnUrl", scrapeInputValue loginPage "returnUrl"),
         ("login", some creds.login),
         ("password", some creds.password)] := by
  simp [loginPostData, loginFields, setField]

/-- **C3** (confirmed): `_format_timestamp` renders the local civil time
of the epoch second obtained by flooring division of the millisecond
timestamp by 1000 (sub-second precision is dropped before any calendar
conversion), so two timestamps in the same whole second format
identically. -/
theorem formatTimestamp_truncates_to_second :
    (∀ (tz ts : Int),
        formatTimestamp tz ts = formatEpochSeconds (Int.fdiv ts 1000 + tz).toNat) ∧
    (∀ (tz ts₁ ts₂ : Int), Int.fdiv ts₁ 1000 = Int.fdiv ts₂ 1000 →
        formatTimestamp tz ts₁ = formatTimestamp tz ts₂) := by
  refine ⟨fun tz ts => rfl, fun tz ts₁ ts₂ h => ?_⟩
  unfold formatTimestamp
  rw [h]

/-- Witness for **C3**: `1456790400123` and `1456790400999` lie in the
same whole second and format identically. -/
theorem formatTimestamp_truncates_to_second_witness :
    Int.fdiv 1456790400123 1000 = Int.fdiv 1456790400999 1000 ∧
    formatTimestamp 0 1456790400123 = formatTimestamp 0 1456790400999 :=
  ⟨by decide, formatTimestamp_truncates_to_second.2 0 1456790400123 1456790400999 (by decide)⟩

/-- **C4** (confirmed): when the chart attribute lookup yields nothing
(chart `div` absent or `data-values` attribute missing), or the attribute
string does not parse as JSON, or the parsed payload lacks the fixed path
`values → 'A+' → total → data`, the whole fetch fails (`none`): no
partial or empty record list is produced and no fallback is attempted. -/
theorem fetchResult_fails_on_bad_page (parse : String → Option Json) (tz : Int)
    (doc : HtmlDoc)
    (h : getChartValues doc = none ∨
         (∀ s, getChartValues doc = some s → parse s = none) ∨
         (∀ j, extractPayload parse doc = some j → payloadDataPath j = none)) :
    fetchResult parse tz doc = none := by
  rcases h with h | h | h
  · simp [fetchResult, extractPayload, h]
  · cases hc : getChartValues doc with
    | none => simp [fetchResult, extractPayload, hc]
    | some s => simp [fetchResult, extractPayload, hc, h s hc]
  · cases hp : extractPayload parse doc with
    | none => simp [fetchResult, hp]
    | some j => simp [fetchResult, hp, formatResponse, h j hp]

/-- Witness for **C4**: on the empty page the chart lookup is empty and
the fetch fails. -/
theorem fetchResult_fails_on_bad_page_witness :
    getChartValues ([] : HtmlDoc) = none ∧
    fetchResult (fun _ => some Json.null) 0 ([] : HtmlDoc) = none :=
  ⟨rfl, fetchResult_fails_on_bad_page (fun _ => some Json.null) 0 [] (Or.inl rfl)⟩

/-- The shape `DD.MM.YYYY` with zero-padded (two-digit) day and month. -/
def isZeroPaddedDate (s : String) : Bool :=
  match splitOnChar '.' s.toList [] with
  | [d, m, y] => d.length = 2 && m.length = 2 && y.length = 4 &&
      d.toList.all Char.isDigit && m.toList.all Char.isDigit && y.toList.all Char.isDigit
  | _ => false

/-- **C5** counterexample: with explicit `year='2016'`, `month='2'`,
`day='3'`, the `date` parameter is `3.2.2016` — the supplied components
verbatim, not zero-padded `DD.MM.YYYY`. -/
theorem getDayData_date_unpadded :
    getParam (getDayDataParams "123" ⟨2016, 1, 1⟩ (some "2016") (some "2") (some "3")) "date"
      = some (some "3.2.2016") ∧
    isZeroPaddedDate "3.2.2016" = false := by
  exact ⟨by decide, by decide⟩

/-- **C5** amended: for explicit nonempty `year`/`month`/`day` strings the
`date` parameter is `day.month.year` with the supplied components used
verbatim (zero-padded only when supplied so), `granularity` is `H`, and no
separate `year`/`month`/`day` parameters appear. -/
theorem getDayData_params_explicit (meter : String) (now : LocalDate) (ys ms ds : String)
    (hy : ys ≠ "") (hm : ms ≠ "") (hd : ds ≠ "") :
    getParam (getDayDataParams meter now (some ys) (some ms) (some ds)) "date"
      = some (some (ds ++ "." ++ ms ++ "." ++ ys)) ∧
    getParam (getDayDataParams meter now (some ys) (some ms) (some ds)) "granularity"
      = some (some GRANULARITY_HOUR) ∧
    getParam (getDayDataParams meter now (some ys) (some ms) (some ds)) "year" = none ∧
    getParam (getDayDataParams meter now (some ys) (some ms) (some ds)) "month" = none ∧
    getParam (getDayDataParams meter now (some ys) (some ms) (some ds)) "day" = none := by
  simp [getDayDataParams, getDataUrlParams, getParam, pyOr, hy, hm, hd,
    PERIOD_DAY, PERIOD_MONTH, PERIOD_YEAR, GRANULARITY_HOUR, List.find?]

/-- Witness for **C5** amended, at `year='2016'`, `month='2'`, `day='3'`. -/
theorem getDayData_params_explicit_witness :
    (("2016" : String) ≠ "" ∧ ("2" : String) ≠ "" ∧ ("3" : String) ≠ "") ∧
    (getParam (getDayDataParams "123" ⟨2016, 1, 1⟩ (some "2016") (some "2") (some "3")) "date"
        = some (some ("3" ++ "." ++ "2" ++ "." ++ "2016")) ∧
     getParam (getDayDataParams "123" ⟨2016, 1, 1⟩ (some "2016") (some "2") (some "3")) "granularity"
        = some (some GRANULARITY_HOUR) ∧
     getParam (getDayDataParams "123" ⟨2016, 1, 1⟩ (some "2016") (some "2") (some "3")) "year" = none ∧
     getParam (getDayDataParams "123" ⟨2016, 1, 1⟩ (some "2016") (some "2") (some "3")) "month" = none ∧
     getParam (getDayDataParams "123" ⟨2016, 1, 1⟩ (some "2016") (some "2") (some "3")) "day" = none) :=
  ⟨⟨by decide, by decide, by decide⟩,
   getDayData_params_explicit "123" ⟨2016, 1, 1⟩ "2016" "2" "3"
     (by decide) (by decide) (by decide)⟩

/-- **C6** (confirmed): an omitted (`None`) year/month/day is filled from
the corresponding component of the current local date, independently of
what the other components are: the `year` parameter for YEAR and MONTH
periods (whatever `month`/`day` arguments accompany it), the `month`
parameter for MONTH (whatever the `year` argument), and each component of
the DAY `date` parameter separately — every mix of omitted and explicit
(nonempty) components is covered. -/
theorem getDataUrl_defaults_from_clock (meter : String) (now : LocalDate)
    (g yr mo dy : Option String) (ys ms ds : String)
    (hys : ys ≠ "") (hms : ms ≠ "") (hds : ds ≠ "") :
    getParam (getDataUrlParams meter now (some PERIOD_YEAR) none mo dy g) "year"
      = some (some (getCurrentYear now)) ∧
    getParam (getDataUrlParams meter now (some PERIOD_MONTH) none mo dy g) "year"
      = some (some (getCurrentYear now)) ∧
    getParam (getDataUrlParams meter now (some PERIOD_MONTH) yr none dy g) "month"
      = some (some (getCurrentMonth now)) ∧
    getParam (getDataUrlParams meter now (some PERIOD_DAY) none none none g) "date"
      = some (some (getCurrentDay now ++ "." ++ getCurrentMonth now ++ "." ++
                    getCurrentYear now)) ∧
    getParam (getDataUrlParams meter now (some PERIOD_DAY) none none (some ds) g) "date"
      = some (some (ds ++ "." ++ getCurrentMonth now ++ "." ++ getCurrentYear now)) ∧
    getParam (getDataUrlParams meter now (some PERIOD_DAY) none (some ms) none g) "date"
      = some (some (getCurrentDay now ++ "." ++ ms ++ "." ++ getCurrentYear now)) ∧
    getParam (getDataUrlParams meter now (some PERIOD_DAY) (some ys) none none g) "date"
      = some (some (getCurrentDay now ++ "." ++ getCurrentMonth now ++ "." ++ ys)) ∧
    getParam (getDataUrlParams meter now (some PERIOD_DAY) none (some ms) (some ds) g) "date"
      = some (some (ds ++ "." ++ ms ++ "." ++ getCurrentYear now)) ∧
    getParam (getDataUrlParams meter now (some PERIOD_DAY) (some ys) none (some ds) g) "date"
      = some (some (ds ++ "." ++ getCurrentMonth now ++ "." ++ ys)) ∧
    getParam (getDataUrlParams meter now (some PERIOD_DAY) (some ys) (some ms) none g) "date"
      = some (some (getCurrentDay now ++ "." ++ ms ++ "." ++ ys)) := by
  refine ⟨?_, ?_, ?_, ?_, ?_, ?_, ?_, ?_, ?_, ?_⟩ <;>
    simp [getDataUrlParams, getParam, pyOr, hys, hms, hds,
      PERIOD_DAY, PERIOD_MONTH, PERIOD_YEAR, List.find?]

/-- Witness for **C6** at meter `123`, current date 2016-03-01, and the
explicit components `year='2016'`, `month='2'`, `day='3'`. -/
theorem getDataUrl_defaults_from_clock_witness :
    (("2016" : String) ≠ "" ∧ ("2" : String) ≠ "" ∧ ("3" : String) ≠ "") ∧
    (getParam (getDataUrlParams "123" ⟨2016, 3, 1⟩ (some PERIOD_YEAR) none (some "07")
        (some "09") (some GRANULARITY_HOUR)) "year"
      = some (some (getCurrentYear ⟨2016, 3, 1⟩)) ∧
    getParam (getDataUrlParams "123" ⟨2016, 3, 1⟩ (some PERIOD_MONTH) none (some "07")
        (some "09") (some GRANULARITY_HOUR)) "year"
      = some (some (getCurrentYear ⟨2016, 3, 1⟩)) ∧
    getParam (getDataUrlParams "123" ⟨2016, 3, 1⟩ (some PERIOD_MONTH) (some "1999") none
        (some "09") (some GRANULARITY_HOUR)) "month"
      = some (some (getCurrentMonth ⟨2016, 3, 1⟩)) ∧
    getParam (getDataUrlParams "123" ⟨2016, 3, 1⟩ (some PERIOD_DAY) none none none
        (some GRANULARITY_HOUR)) "date"
      = some (some (getCurrentDay ⟨2016, 3, 1⟩ ++ "." ++ getCurrentMonth ⟨2016, 3, 1⟩ ++
                    "." ++ getCurrentYear ⟨2016, 3, 1⟩)) ∧
    getParam (getDataUrlParams "123" ⟨2016, 3, 1⟩ (some PERIOD_DAY) none none (some "3")
        (some GRANULARITY_HOUR)) "date"
      = some (some ("3" ++ "." ++ getCurrentMonth ⟨2016, 3, 1⟩ ++ "." ++
                    getCurrentYear ⟨2016, 3, 1⟩)) ∧
    getParam (getDataUrlParams "123" ⟨2016, 3, 1⟩ (some PERIOD_DAY) none (some "2") none
        (some GRANULARITY_HOUR)) "date"
      = some (some (getCurrentDay ⟨2016, 3, 1⟩ ++ "." ++ "2" ++ "." ++
                    getCurrentYear ⟨2016, 3, 1⟩)) ∧
    getParam (getDataUrlParams "123" ⟨2016, 3, 1⟩ (some PERIOD_DAY) (some "2016") none none
        (some GRANULARITY_HOUR)) "date"
      = some (some (getCurrentDay ⟨2016, 3, 1⟩ ++ "." ++ getCurrentMonth ⟨2016, 3, 1⟩ ++
                    "." ++ "2016")) ∧
    getParam (getDataUrlParams "123" ⟨2016, 3, 1⟩ (some PERIOD_DAY) none (some "2")
        (some "3") (some GRANULARITY_HOUR)) "date"
      = some (some ("3" ++ "." ++ "2" ++ "." ++ getCurrentYear ⟨2016, 3, 1⟩)) ∧
    getParam (getDataUrlParams "123" ⟨2016, 3, 1⟩ (some PERIOD_DAY) (some "2016") none
        (some "3") (some GRANULARITY_HOUR)) "date"
      = some (some ("3" ++ "." ++ getCurrentMonth ⟨2016, 3, 1⟩ ++ "." ++ "2016")) ∧
    getParam (getDataUrlParams "123" ⟨2016, 3, 1⟩ (some PERIOD_DAY) (some "2016")
        (some "2") none (some GRANULARITY_HOUR)) "date"
      = some (some (getCurrentDay ⟨2016, 3, 1⟩ ++ "." ++ "2" ++ "." ++ "2016"))) :=
  ⟨⟨by decide, by decide, by decide⟩,
   getDataUrl_defaults_from_clock "123" ⟨2016, 3, 1⟩ (some GRANULARITY_HOUR)
     (some "1999") (some "07") (some "09") "2016" "2" "3"
     (by decide) (by decide) (by decide)⟩

/-- **C7** (confirmed): a `--period` value that is none of
`day`/`month`/`year` invokes no fetch and leaves the result unset — the
dispatch is a silent no-op, with no invalid-argument error arm. -/
theorem dispatchPeriod_unrecognized (p : String)
    (h1 : p ≠ "year") (h2 : p ≠ "month") (h3 : p ≠ "day") :
    dispatchPeriod p = none := by
  simp [dispatchPeriod, h1, h2, h3]

/-- Witness for **C7** at the unrecognized period `week`. -/
theorem dispatchPeriod_unrecognized_witness :
    (("week" : String) ≠ "year" ∧ ("week" : String) ≠ "month" ∧ ("week" : String) ≠ "day") ∧
    dispatchPeriod "week" = none :=
  ⟨⟨by decide, by decide, by decide⟩,
   dispatchPeriod_unrecognized "week" (by decide) (by decide) (by decide)⟩

/-- **C8** counterexample: the URL builder is not free of observable
effects — at a concrete input its standard-output trace is nonempty (line
119 prints the constructed URL). -/
theorem getDataUrlRun_prints :
    (getDataUrlRun "123" ⟨2016, 3, 1⟩ (some PERIOD_DAY) none none none
        (some GRANULARITY_HOUR)).2 ≠ ([] : List String) := by
  simp [getDataUrlRun]

/-- **C8** amended: the URL is a deterministic function of the inputs plus
the current date (two calls with the same inputs and date produce the
identical URL), but each call additionally prints that URL — exactly one
line — to standard output. -/
theorem getDataUrlRun_deterministic (meter : String) (now : LocalDate)
    (period year month day granularity : Option String) :
    getDataUrlRun meter now period year month day granularity
      = (getDataUrl meter now period year month day granularity,
         [getDataUrl meter now period year month day granularity]) := rfl

/-- **C9** (confirmed): the chart lookup selects only `div` elements of
class `chart`; on a page where no `div` carries that class (e.g. the
`data-values` attribute sits on a non-`div` element of class `chart`), the
attribute lookup yields nothing and the fetch fails exactly as if the
chart element were absent. -/
theorem chartLookup_selects_only_divs (parse : String → Option Json) (tz : Int)
    (doc : HtmlDoc)
    (h : ∀ e ∈ doc, e.tag = "div" → e.hasClass "chart" = false) :
    getChartValues doc = none ∧ fetchResult parse tz doc = none := by
  have hsel : selectDivChart doc = [] := by
    rw [selectDivChart, List.filter_eq_nil_iff]
    intro e he
    simp only [Bool.and_eq_true, beq_iff_eq, not_and]
    intro ht hc
    rw [h e he ht] at hc
    exact Bool.false_ne_true hc
  have hcv : getChartValues doc = none := by
    rw [getChartValues, hsel]; rfl
  exact ⟨hcv, by simp [fetchResult, extractPayload, hcv]⟩

/-- A page whose `data-values` payload sits on a `span` of class `chart`. -/
def spanChartDoc : HtmlDoc :=
  [⟨"span", [("class", "chart"), ("data-values", "[]")]⟩]

/-- Witness for **C9** on `spanChartDoc`. -/
theorem chartLookup_selects_only_divs_witness :
    (∀ e ∈ spanChartDoc, e.tag = "div" → e.hasClass "chart" = false) ∧
    (getChartValues spanChartDoc = none ∧
     fetchResult (fun _ => some (Json.arr [])) 0 spanChartDoc = none) :=
  ⟨by decide, chartLookup_selects_only_divs (fun _ => some (Json.arr [])) 0
    spanChartDoc (by decide)⟩

/-- **C10** (confirmed): the normalizer performs no type validation of an
entry's `value`: whatever JSON value it is — null, boolean, string,
object, array, number — it is copied unchanged into the output record. -/
theorem formatResponse_copies_any_value :
    (∀ (tz n : Int) (v : Json) (rest : List Json),
        formatItems tz (Json.obj [("timestamp", Json.num n), ("value", v)] :: rest)
          = (formatItems tz rest).map
              (fun recs => ⟨formatTimestamp tz n, v⟩ :: recs)) ∧
    (∀ (tz n : Int) (v : Json),
        formatResponse tz (Json.obj [("values", Json.obj [("A+", Json.obj [("total",
            Json.obj [("data", Json.arr [Json.obj [("timestamp", Json.num n),
            ("value", v)]])])])])])
          = some [⟨formatTimestamp tz n, v⟩]) :=
  ⟨fun _ _ _ _ => rfl, fun _ _ _ => rfl⟩

end Scraper
